import Mathlib

/-!
Shallow embedding of the snooze-rs repository (src/linux.rs): a drift-free
periodic timer built on the POSIX monotonic clock.

The source composes two syscalls, `clock_gettime` and `clock_nanosleep`
(absolute-target mode), behind a `Snooze` struct holding a fixed `duration`
and a `last_time` anchor.  Here the OS is an oracle: a `clock_gettime`
invocation consumes one `Except IoError timespec` outcome, and one
`clock_nanosleep` invocation consumes a finite list of `IoError`s — the
errors the syscall reports on successive attempts before it finally returns
0 (the list ends when the syscall succeeds or the loop exits).  Machine
integers (`time_t`, `c_long`, both 64-bit here) are modelled as unbounded
`Int`: the claims concern the nanosecond carrying arithmetic, whose values
stay far below the 64-bit bounds.
-/

/-- POSIX `timespec` as used by the source through libc: whole seconds
(`tv_sec : time_t`) and sub-second nanoseconds (`tv_nsec : c_long`). -/
structure timespec where
  tv_sec : Int
  tv_nsec : Int
deriving DecidableEq, Repr

/-- The nanosecond normalization invariant of the spec's data model:
0 ≤ nanoseconds < 1,000,000,000. -/
def timespec.normalized (t : timespec) : Prop :=
  0 ≤ t.tv_nsec ∧ t.tv_nsec < 1000000000

instance (t : timespec) : Decidable t.normalized :=
  decidable_of_iff (0 ≤ t.tv_nsec ∧ t.tv_nsec < 1000000000) Iff.rfl

/-- Total value of a `timespec` in nanoseconds (mathematical, for stating
exactness of the carrying arithmetic). -/
def timespec.toNanos (t : timespec) : Int :=
  t.tv_sec * 1000000000 + t.tv_nsec

/-- The `std::io::ErrorKind` values the source inspects: `InvalidInput`
(`clock_gettime` maps it to `Unsupported`), `Interrupted` (retried by the
sleep loop), and a catch-all for every other kind. -/
inductive IoErrorKind where
  | InvalidInput : IoErrorKind
  | Interrupted : IoErrorKind
  | Other : Nat → IoErrorKind
deriving DecidableEq, Repr

/-- A `std::io::Error`: its kind plus the raw OS error payload it carries
(kept so that wrapping the underlying error is observable). -/
structure IoError where
  kind : IoErrorKind
  os_code : Int
deriving DecidableEq, Repr

/-- Modelled from the spec: the error taxonomy of `SnoozeError` (defined in
the crate's lib.rs, which is not among the provided sources) —
`Unsupported(reason)` for a missing clock/timer capability and
`OsFailure(underlying)` carrying the original OS error. -/
inductive SnoozeError where
  | Unsupported : String → SnoozeError
  | OsFailure : IoError → SnoozeError
deriving DecidableEq, Repr

/-- Modelled from the spec: `SnoozeError::from_io_error` (lib.rs, not among
the provided sources) wraps an OS-level failure as `OsFailure(underlying)`,
carrying the original error for diagnostics. -/
def SnoozeError.from_io_error (error : IoError) : SnoozeError :=
  SnoozeError.OsFailure error

/-- A record of one syscall the library issues, for stating which OS
facilities an operation touches. -/
inductive Syscall where
  | clock_read : Syscall
  | sleep_abs : timespec → Syscall
deriving DecidableEq, Repr

/-- `clock_gettime` (src/linux.rs lines 20–32): read CLOCK_MONOTONIC; on a
nonzero return, map an `InvalidInput` OS error to `Unsupported` and any
other to `SnoozeError::from_io_error`.  The oracle `os` is the outcome of
the one `ffi::clock_gettime` invocation. -/
def clock_gettime (os : Except IoError timespec) : Except SnoozeError timespec :=
  match os with
  | .ok tp => .ok tp
  | .error error =>
    .error (match error.kind with
      | .InvalidInput => SnoozeError.Unsupported "CLOCK_MONOTONIC is not supported"
      | _ => SnoozeError.from_io_error error)

/-- `clock_nanosleep` (src/linux.rs lines 34–44): loop while the syscall
returns nonzero; keep retrying (with the same `time` argument) while the
error kind is `Interrupted`, return `from_io_error` on any other kind, and
return `Ok(())` once the syscall returns 0.  The oracle `errs` lists the
errors of the successive failing attempts; the end of the list is the
attempt that returns 0. -/
def clock_nanosleep (time : timespec) : List IoError → Except SnoozeError Unit
  | [] => .ok ()
  | error :: rest =>
    if error.kind = IoErrorKind.Interrupted then
      clock_nanosleep time rest
    else
      .error (SnoozeError.from_io_error error)

/-- The sequence of `req` arguments `clock_nanosleep` passes to the
underlying `ffi::clock_nanosleep` syscall across its retry loop, under the
same oracle as `clock_nanosleep`. -/
def clock_nanosleep_requests (time : timespec) : List IoError → List timespec
  | [] => [time]
  | error :: rest =>
    if error.kind = IoErrorKind.Interrupted then
      time :: clock_nanosleep_requests time rest
    else
      [time]

/-- The `Snooze` struct (src/linux.rs lines 47–50): the fixed interval and
the anchor of the schedule. -/
structure Snooze where
  duration : timespec
  last_time : timespec
deriving DecidableEq, Repr

/-- The old `std::time::duration::Duration` value (a seconds + nanoseconds
pair with nanoseconds normalized into [0, 1e9)), represented by its total
signed length in nanoseconds. -/
abbrev Duration := Int

/-- `Duration::seconds(s)`: a duration of `s` whole seconds. -/
def Duration.seconds (s : Int) : Int := s * 1000000000

/-- `Duration::num_seconds`: the total number of whole seconds, truncated
toward zero. -/
def Duration.num_seconds (d : Int) : Int := Int.tdiv d 1000000000

/-- `Duration::num_nanoseconds`: the total number of nanoseconds as an
`i64`, or `None` when that value overflows an `i64`. -/
def Duration.num_nanoseconds (d : Int) : Option Int :=
  if -(9223372036854775808 : Int) ≤ d ∧ d < 9223372036854775808 then some d else none

/-- `Snooze::new` (src/linux.rs lines 53–64): decompose `duration` into
whole seconds (`num_seconds`, truncation toward zero) and the nanosecond
remainder (`num_nanoseconds` of the difference, `unwrap`ped), read the
clock once for `last_time`, and build the struct.  `none` models the
`unwrap()` panic (which happens before the clock read); the clock error is
propagated by `try!`. -/
def Snooze.new (duration : Duration) (clk : Except IoError timespec) :
    Option (Except SnoozeError Snooze) :=
  let duration_secs := Duration.num_seconds duration
  match Duration.num_nanoseconds (duration - Duration.seconds duration_secs) with
  | none => none
  | some duration_nanos =>
    some (match clock_gettime clk with
      | .error e => .error e
      | .ok t => .ok { duration := { tv_sec := duration_secs, tv_nsec := duration_nanos },
                       last_time := t })

/-- The syscalls `Snooze::new` issues: one `clock_gettime` read, unless the
`unwrap()` on line 56 panics first. -/
def Snooze.new_syscalls (duration : Duration) : List Syscall :=
  let duration_secs := Duration.num_seconds duration
  match Duration.num_nanoseconds (duration - Duration.seconds duration_secs) with
  | none => []
  | some _ => [Syscall.clock_read]

/-- `Snooze::reset` (src/linux.rs lines 65–68): re-read the clock and store
the fresh value in `last_time`; `try!` propagates a clock error before the
assignment, leaving the struct unchanged. -/
def Snooze.reset (self : Snooze) (clk : Except IoError timespec) :
    Except SnoozeError Unit × Snooze :=
  match clock_gettime clk with
  | .error e => (.error e, self)
  | .ok t => (.ok (), { self with last_time := t })

/-- The syscalls `Snooze::reset` issues: exactly the one `clock_gettime`
read. -/
def Snooze.reset_syscalls : List Syscall := [Syscall.clock_read]

/-- The `target_time` computed by `Snooze::wait` (src/linux.rs lines
70–84): add seconds and nanoseconds componentwise, then carry once when the
nanosecond sum reaches `NANOS_IN_SECOND = 1,000,000,000`. -/
def Snooze.target_time (self : Snooze) : timespec :=
  let seconds := self.last_time.tv_sec + self.duration.tv_sec
  let nanos := self.last_time.tv_nsec + self.duration.tv_nsec
  if nanos ≥ 1000000000 then
    { tv_sec := seconds + 1, tv_nsec := nanos - 1000000000 }
  else
    { tv_sec := seconds, tv_nsec := nanos }

/-- `Snooze::wait` (src/linux.rs lines 69–88): compute `target_time`, sleep
until it with `clock_nanosleep` (the `try!` propagates a sleep error before
the assignment, leaving the struct unchanged), then store `target_time` —
the intended wake time — as the new `last_time`.  The oracle `sleep_errs`
is the error trace of the one `clock_nanosleep` call. -/
def Snooze.wait (self : Snooze) (sleep_errs : List IoError) :
    Except SnoozeError Unit × Snooze :=
  match clock_nanosleep (Snooze.target_time self) sleep_errs with
  | .error e => (.error e, self)
  | .ok _ => (.ok (), { self with last_time := Snooze.target_time self })

/-- The syscalls `Snooze::wait` issues: the `ffi::clock_nanosleep`
invocations of its one `clock_nanosleep` call, each with the target it
passes, and nothing else (in particular no clock read). -/
def Snooze.wait_syscalls (self : Snooze) (sleep_errs : List IoError) : List Syscall :=
  (clock_nanosleep_requests (Snooze.target_time self) sleep_errs).map Syscall.sleep_abs

/-- One user-visible call on a `Snooze` value, with the OS oracle it
consumes. -/
inductive Op where
  | wait_call : List IoError → Op
  | reset_call : Except IoError timespec → Op
deriving Repr

/-- The state after one call, whether it succeeded or failed. -/
def Snooze.apply (self : Snooze) : Op → Snooze
  | .wait_call errs => (Snooze.wait self errs).2
  | .reset_call clk => (Snooze.reset self clk).2

/-- The state after a whole sequence of calls. -/
def Snooze.runOps (self : Snooze) (ops : List Op) : Snooze :=
  ops.foldl Snooze.apply self

/-- The state after a sequence of `wait` calls with the given sleep-error
traces. -/
def Snooze.waitRun (self : Snooze) (traces : List (List IoError)) : Snooze :=
  traces.foldl (fun st tr => (Snooze.wait st tr).2) self

/-- A concrete waiter (500 ms interval, anchored at 100 s) used to
instantiate the theorems on closed inputs. -/
def sample : Snooze :=
  { duration := { tv_sec := 0, tv_nsec := 500000000 },
    last_time := { tv_sec := 100, tv_nsec := 0 } }

/-- A concrete non-interruption OS error (an `Other` kind with raw code 5). -/
def err0 : IoError := { kind := IoErrorKind.Other 0, os_code := 5 }

/-- A concrete interruption error (EINTR, raw code 4). -/
def intr0 : IoError := { kind := IoErrorKind.Interrupted, os_code := 4 }

/-- A concrete `InvalidInput` error (EINVAL, raw code 22), the kind the
source maps to `Unsupported`. -/
def einv : IoError := { kind := IoErrorKind.InvalidInput, os_code := 22 }

/-! Helper lemmas about the syscall shims and the target computation. -/

theorem clock_nanosleep_ok (t : timespec) (errs : List IoError)
    (h : ∀ e ∈ errs, e.kind = IoErrorKind.Interrupted) :
    clock_nanosleep t errs = .ok () := by
  induction errs with
  | nil => rfl
  | cons e rest ih =>
    have he := h e (List.mem_cons_self e rest)
    simp only [clock_nanosleep, he, if_pos]
    exact ih fun x hx => h x (List.mem_cons_of_mem e hx)

theorem clock_nanosleep_requests_ok (t : timespec) (errs : List IoError)
    (h : ∀ e ∈ errs, e.kind = IoErrorKind.Interrupted) :
    clock_nanosleep_requests t errs = List.replicate (errs.length + 1) t := by
  induction errs with
  | nil => rfl
  | cons e rest ih =>
    have he := h e (List.mem_cons_self e rest)
    simp only [clock_nanosleep_requests, he, if_pos, List.length_cons]
    rw [ih fun x hx => h x (List.mem_cons_of_mem e hx)]
    rfl

theorem clock_nanosleep_hard (t : timespec) (pre : List IoError) (e : IoError)
    (rest : List IoError) (hpre : ∀ x ∈ pre, x.kind = IoErrorKind.Interrupted)
    (he : e.kind ≠ IoErrorKind.Interrupted) :
    clock_nanosleep t (pre ++ e :: rest) = .error (SnoozeError.OsFailure e) ∧
    clock_nanosleep_requests t (pre ++ e :: rest) = List.replicate (pre.length + 1) t := by
  induction pre with
  | nil =>
    simp only [List.nil_append, clock_nanosleep, clock_nanosleep_requests, he, if_neg,
      List.length_nil, List.replicate, SnoozeError.from_io_error]
    exact ⟨rfl, rfl⟩
  | cons x xs ih =>
    have hx := hpre x (List.mem_cons_self x xs)
    have ihx := ih fun y hy => hpre y (List.mem_cons_of_mem x hy)
    simp only [List.cons_append, clock_nanosleep, clock_nanosleep_requests, hx, if_pos,
      List.length_cons, List.append_eq]
    exact ⟨ihx.1, by rw [ihx.2]; rfl⟩

theorem Snooze.target_time_toNanos (s : Snooze) :
    (Snooze.target_time s).toNanos = s.last_time.toNanos + s.duration.toNanos := by
  simp only [Snooze.target_time, timespec.toNanos]
  split <;> ring

theorem Snooze.target_time_normalized (s : Snooze)
    (hA : s.last_time.normalized) (hI : s.duration.normalized) :
    (Snooze.target_time s).normalized := by
  obtain ⟨h1, h2⟩ := hA
  obtain ⟨h3, h4⟩ := hI
  simp only [Snooze.target_time, timespec.normalized] at *
  split <;> dsimp only <;> constructor <;> omega

theorem Snooze.wait_ok (s : Snooze) (errs : List IoError)
    (h : ∀ e ∈ errs, e.kind = IoErrorKind.Interrupted) :
    Snooze.wait s errs = (.ok (), { s with last_time := Snooze.target_time s }) := by
  unfold Snooze.wait
  rw [clock_nanosleep_ok _ _ h]

theorem Snooze.wait_duration_eq (s : Snooze) (errs : List IoError) :
    (Snooze.wait s errs).2.duration = s.duration := by
  unfold Snooze.wait
  split <;> rfl

theorem Snooze.wait_last_time_of_ok (s : Snooze) (errs : List IoError)
    (h : (Snooze.wait s errs).1 = .ok ()) :
    (Snooze.wait s errs).2.last_time = Snooze.target_time s := by
  revert h
  unfold Snooze.wait
  split
  · intro h
    exact absurd h (by simp)
  · intro _
    rfl

theorem Snooze.wait_error_state (s : Snooze) (errs : List IoError) (e : SnoozeError)
    (h : (Snooze.wait s errs).1 = .error e) :
    (Snooze.wait s errs).2 = s := by
  revert h
  unfold Snooze.wait
  split
  · intro _
    rfl
  · intro h
    exact absurd h (by simp)

theorem Snooze.reset_duration_eq (s : Snooze) (clk : Except IoError timespec) :
    (Snooze.reset s clk).2.duration = s.duration := by
  unfold Snooze.reset
  split <;> rfl

theorem Int.tmod_bound_billion (d : Int) :
    -(1000000000 : Int) < Int.tmod d 1000000000 ∧ Int.tmod d 1000000000 < 1000000000 := by
  rcases le_or_lt 0 d with h | h
  · have h1 := Int.tmod_nonneg 1000000000 h
    have h2 := Int.tmod_lt_of_pos d (b := 1000000000) (by decide)
    omega
  · have ha : (0 : Int) ≤ -d := by omega
    have h1 := Int.tmod_nonneg 1000000000 ha
    have h2 := Int.tmod_lt_of_pos (-d) (b := 1000000000) (by decide)
    have e1 := Int.tdiv_add_tmod d 1000000000
    have e2 := Int.tdiv_add_tmod (-d) 1000000000
    have e3 : Int.tdiv (-d) 1000000000 = -(Int.tdiv d 1000000000) := Int.neg_tdiv d 1000000000
    omega

theorem Duration.remainder_eq_tmod (d : Int) :
    d - Duration.seconds (Duration.num_seconds d) = Int.tmod d 1000000000 := by
  have e1 := Int.tdiv_add_tmod d 1000000000
  unfold Duration.seconds Duration.num_seconds
  omega

theorem Duration.num_nanoseconds_remainder (d : Int) :
    Duration.num_nanoseconds (d - Duration.seconds (Duration.num_seconds d))
      = some (Int.tmod d 1000000000) := by
  rw [Duration.remainder_eq_tmod]
  have hb := Int.tmod_bound_billion d
  unfold Duration.num_nanoseconds
  rw [if_pos]
  constructor <;> omega

theorem Snooze.waitRun_spec (I A0 : timespec) (traces : List (List IoError))
    (hI : I.normalized) (hA : A0.normalized)
    (h : ∀ tr ∈ traces, ∀ e ∈ tr, e.kind = IoErrorKind.Interrupted) :
    (Snooze.waitRun ⟨I, A0⟩ traces).duration = I ∧
    (Snooze.waitRun ⟨I, A0⟩ traces).last_time.normalized ∧
    (Snooze.waitRun ⟨I, A0⟩ traces).last_time.toNanos
      = A0.toNanos + (traces.length : Int) * I.toNanos := by
  induction traces generalizing A0 with
  | nil =>
    refine ⟨rfl, hA, ?_⟩
    simp [Snooze.waitRun]
  | cons tr rest ih =>
    have htr : ∀ e ∈ tr, e.kind = IoErrorKind.Interrupted := h tr (List.mem_cons_self tr rest)
    have hrest : ∀ t2 ∈ rest, ∀ e ∈ t2, e.kind = IoErrorKind.Interrupted :=
      fun t2 ht2 => h t2 (List.mem_cons_of_mem tr ht2)
    have hstep : Snooze.waitRun ⟨I, A0⟩ (tr :: rest)
        = Snooze.waitRun ⟨I, Snooze.target_time ⟨I, A0⟩⟩ rest := by
      simp only [Snooze.waitRun, List.foldl_cons]
      rw [Snooze.wait_ok _ _ htr]
    have hnorm := Snooze.target_time_normalized ⟨I, A0⟩ hA hI
    have hnanos := Snooze.target_time_toNanos ⟨I, A0⟩
    obtain ⟨d1, d2, d3⟩ := ih (Snooze.target_time ⟨I, A0⟩) hnorm hrest
    rw [hstep]
    refine ⟨d1, d2, ?_⟩
    rw [d3, hnanos]
    dsimp only
    simp only [List.length_cons]
    push_cast
    ring

/-! The claims. -/

/-- C1: for every normalized interval I and normalized anchor A0 and every
sequence of N successful `wait` calls (successive sleep traces made only of
interruptions, which `clock_nanosleep` absorbs), each call indeed succeeds,
and for every k ≤ N the anchor after k calls — the target computed by the
k-th call — equals A0 + k·I exactly, with no nanosecond error accumulating
from the repeated carrying additions (and it stays normalized). -/
theorem C1_wait_targets_exact (I A0 : timespec) (traces : List (List IoError))
    (hI : I.normalized) (hA : A0.normalized)
    (h : ∀ tr ∈ traces, ∀ e ∈ tr, e.kind = IoErrorKind.Interrupted) :
    (∀ k (hk : k < traces.length),
      (Snooze.wait (Snooze.waitRun ⟨I, A0⟩ (traces.take k))
        (traces.get ⟨k, hk⟩)).1 = .ok ()) ∧
    ∀ k, k ≤ traces.length →
      (Snooze.waitRun ⟨I, A0⟩ (traces.take k)).last_time.toNanos
        = A0.toNanos + (k : Int) * I.toNanos ∧
      (Snooze.waitRun ⟨I, A0⟩ (traces.take k)).last_time.normalized := by
  constructor
  · intro k hk
    rw [Snooze.wait_ok _ _ (h _ (traces.get_mem k hk))]
  · intro k hk
    have hsub : ∀ tr ∈ traces.take k, ∀ e ∈ tr, e.kind = IoErrorKind.Interrupted :=
      fun tr htr => h tr (List.mem_of_mem_take htr)
    obtain ⟨_, h2, h3⟩ := Snooze.waitRun_spec I A0 (traces.take k) hI hA hsub
    refine ⟨?_, h2⟩
    rw [h3, List.length_take, min_eq_left hk]

/-- Witness for C1: interval 600 ms, anchor 10.5 s, two successful calls
(the second interrupted once); after both, the anchor is exactly
A0 + 2·I = 11,700,000,000 ns. -/
theorem C1_witness :
    (Snooze.waitRun ⟨{ tv_sec := 0, tv_nsec := 600000000 },
        { tv_sec := 10, tv_nsec := 500000000 }⟩ ([[], [intr0]].take 2)).last_time.toNanos
      = ({ tv_sec := 10, tv_nsec := 500000000 } : timespec).toNanos
        + ((2 : Nat) : Int) * ({ tv_sec := 0, tv_nsec := 600000000 } : timespec).toNanos :=
  ((C1_wait_targets_exact { tv_sec := 0, tv_nsec := 600000000 }
    { tv_sec := 10, tv_nsec := 500000000 } [[], [intr0]]
    (by decide) (by decide) (by decide)).2 2 (by decide)).1

/-- C2: when anchor and interval satisfy the normalization invariant, a
successful `wait` stores an anchor whose nanosecond field is again in
[0, 1e9); in particular anchor {sec=1, nsec=999999999} plus interval
{sec=0, nsec=2} yields target {sec=2, nsec=1}. -/
theorem C2_carry_preserves_invariant (s : Snooze) (errs : List IoError)
    (hA : s.last_time.normalized) (hI : s.duration.normalized)
    (hok : (Snooze.wait s errs).1 = .ok ()) :
    (Snooze.wait s errs).2.last_time.normalized ∧
    Snooze.target_time { duration := { tv_sec := 0, tv_nsec := 2 },
                         last_time := { tv_sec := 1, tv_nsec := 999999999 } }
      = { tv_sec := 2, tv_nsec := 1 } := by
  refine ⟨?_, by decide⟩
  rw [Snooze.wait_last_time_of_ok s errs hok]
  exact Snooze.target_time_normalized s hA hI

/-- Witness for C2: the carrying example itself, run through `wait` with an
uninterrupted sleep. -/
theorem C2_witness :
    (Snooze.wait { duration := { tv_sec := 0, tv_nsec := 2 },
                   last_time := { tv_sec := 1, tv_nsec := 999999999 } } []).2.last_time.normalized ∧
    Snooze.target_time { duration := { tv_sec := 0, tv_nsec := 2 },
                         last_time := { tv_sec := 1, tv_nsec := 999999999 } }
      = { tv_sec := 2, tv_nsec := 1 } :=
  C2_carry_preserves_invariant
    { duration := { tv_sec := 0, tv_nsec := 2 },
      last_time := { tv_sec := 1, tv_nsec := 999999999 } } []
    (by decide) (by decide) rfl

/-- C3: on success, `wait` stores the computed `target_time` — a pure
function of the previous anchor and the interval — as the new anchor, and
`wait` issues no clock read at all (its syscalls are only the absolute
sleeps). -/
theorem C3_anchor_set_to_intended (s : Snooze) (errs : List IoError) :
    ((Snooze.wait s errs).1 = .ok () →
      (Snooze.wait s errs).2.last_time = Snooze.target_time s) ∧
    Syscall.clock_read ∉ Snooze.wait_syscalls s errs := by
  refine ⟨Snooze.wait_last_time_of_ok s errs, ?_⟩
  simp only [Snooze.wait_syscalls, List.mem_map]
  rintro ⟨t, _, ht⟩
  exact Syscall.noConfusion ht

/-- Witness for C3: the sample waiter with an uninterrupted sleep. -/
theorem C3_witness :
    (Snooze.wait sample []).2.last_time = Snooze.target_time sample ∧
    Syscall.clock_read ∉ Snooze.wait_syscalls sample [] :=
  ⟨(C3_anchor_set_to_intended sample []).1 rfl,
   (C3_anchor_set_to_intended sample []).2⟩

/-- C4: a `wait` or `reset` call that returns an error leaves the `Snooze`
state (in particular its anchor) exactly as it was. -/
theorem C4_failed_call_leaves_state (s : Snooze) :
    (∀ errs e, (Snooze.wait s errs).1 = .error e → (Snooze.wait s errs).2 = s) ∧
    (∀ clk e, (Snooze.reset s clk).1 = .error e → (Snooze.reset s clk).2 = s) := by
  refine ⟨fun errs e h => Snooze.wait_error_state s errs e h, ?_⟩
  intro clk e h
  revert h
  unfold Snooze.reset
  split
  · intro _
    rfl
  · intro h
    exact absurd h (by simp)

/-- Witness for C4: a hard sleep error and a hard clock error on the sample
waiter, both leaving it unchanged. -/
theorem C4_witness :
    (Snooze.wait sample [err0]).2 = sample ∧
    (Snooze.reset sample (.error err0)).2 = sample :=
  ⟨(C4_failed_call_leaves_state sample).1 [err0] (SnoozeError.OsFailure err0) rfl,
   (C4_failed_call_leaves_state sample).2 (.error err0) (SnoozeError.OsFailure err0) rfl⟩

/-- C5: a sleep interrupted any finite number of times is silently retried
with the same absolute target (one request per attempt, all equal), never
surfaces to the caller, and `wait` returns success with the anchor advanced
exactly once to the originally computed target; a non-interruption error is
returned immediately as `OsFailure` with no further sleep request. -/
theorem C5_interrupt_transparency (s : Snooze) (pre : List IoError)
    (hpre : ∀ e ∈ pre, e.kind = IoErrorKind.Interrupted) :
    (Snooze.wait s pre = (.ok (), { s with last_time := Snooze.target_time s }) ∧
     Snooze.wait_syscalls s pre
       = List.replicate (pre.length + 1) (Syscall.sleep_abs (Snooze.target_time s))) ∧
    ∀ e rest, e.kind ≠ IoErrorKind.Interrupted →
      Snooze.wait s (pre ++ e :: rest) = (.error (SnoozeError.OsFailure e), s) ∧
      Snooze.wait_syscalls s (pre ++ e :: rest)
        = List.replicate (pre.length + 1) (Syscall.sleep_abs (Snooze.target_time s)) := by
  refine ⟨⟨Snooze.wait_ok s pre hpre, ?_⟩, ?_⟩
  · simp only [Snooze.wait_syscalls, clock_nanosleep_requests_ok _ _ hpre, List.map_replicate]
  · intro e rest he
    obtain ⟨h1, h2⟩ := clock_nanosleep_hard (Snooze.target_time s) pre e rest hpre he
    constructor
    · unfold Snooze.wait
      rw [h1]
    · simp only [Snooze.wait_syscalls, h2, List.map_replicate]

/-- Witness for C5: one interruption before success (two identical sleep
requests), and the same interruption followed by a hard error (failure with
no retry past it). -/
theorem C5_witness :
    (Snooze.wait sample [intr0]
        = (.ok (), { sample with last_time := Snooze.target_time sample }) ∧
      Snooze.wait_syscalls sample [intr0]
        = List.replicate ([intr0].length + 1) (Syscall.sleep_abs (Snooze.target_time sample))) ∧
    Snooze.wait sample ([intr0] ++ err0 :: [])
        = (.error (SnoozeError.OsFailure err0), sample) ∧
    Snooze.wait_syscalls sample ([intr0] ++ err0 :: [])
        = List.replicate ([intr0].length + 1) (Syscall.sleep_abs (Snooze.target_time sample)) :=
  ⟨(C5_interrupt_transparency sample [intr0] (by decide)).1,
   (C5_interrupt_transparency sample [intr0] (by decide)).2 err0 [] (by decide)⟩

/-- C6: a failing clock read surfaces as `Unsupported` exactly when the OS
error kind is `InvalidInput` (the "monotonic clock unavailable" report) and
as `OsFailure` wrapping the underlying error for every other kind; the two
kinds are distinct constructors, and both `reset` and `new` propagate the
mapped error unchanged. -/
theorem C6_error_kinds (e : IoError) (s : Snooze) (d : Int) :
    (clock_gettime (.error e)
        = .error (SnoozeError.Unsupported "CLOCK_MONOTONIC is not supported")
      ↔ e.kind = IoErrorKind.InvalidInput) ∧
    (e.kind ≠ IoErrorKind.InvalidInput →
      clock_gettime (.error e) = .error (SnoozeError.OsFailure e)) ∧
    (∀ m x, SnoozeError.Unsupported m ≠ SnoozeError.OsFailure x) ∧
    (∀ err, clock_gettime (.error e) = .error err →
      (Snooze.reset s (.error e)).1 = .error err ∧
      Snooze.new d (.error e) = some (.error err)) := by
  obtain ⟨k, c⟩ := e
  refine ⟨?_, ?_, fun m x h => SnoozeError.noConfusion h, ?_⟩
  · cases k <;> simp [clock_gettime, SnoozeError.from_io_error]
  · intro hk
    cases k with
    | InvalidInput => exact absurd rfl hk
    | Interrupted => rfl
    | Other n => rfl
  · intro err h
    constructor
    · unfold Snooze.reset
      rw [h]
    · simp only [Snooze.new]
      rw [Duration.num_nanoseconds_remainder d, h]

/-- Witness for C6: EINVAL maps to `Unsupported`; a generic error maps to
`OsFailure` and flows unchanged out of `reset` and `new`. -/
theorem C6_witness :
    clock_gettime (.error einv)
        = .error (SnoozeError.Unsupported "CLOCK_MONOTONIC is not supported") ∧
    clock_gettime (.error err0) = .error (SnoozeError.OsFailure err0) ∧
    (Snooze.reset sample (.error err0)).1 = .error (SnoozeError.OsFailure err0) ∧
    Snooze.new 0 (.error err0) = some (.error (SnoozeError.OsFailure err0)) :=
  ⟨(C6_error_kinds einv sample 0).1.mpr rfl,
   (C6_error_kinds err0 sample 0).2.1 (by decide),
   ((C6_error_kinds err0 sample 0).2.2.2 (SnoozeError.OsFailure err0)
      ((C6_error_kinds err0 sample 0).2.1 (by decide))).1,
   ((C6_error_kinds err0 sample 0).2.2.2 (SnoozeError.OsFailure err0)
      ((C6_error_kinds err0 sample 0).2.1 (by decide))).2⟩

/-- C7: across any sequence of `wait` and `reset` calls, successful or
failed, the stored interval (the `duration` field) never changes. -/
theorem C7_interval_immutable (s : Snooze) (ops : List Op) :
    (Snooze.runOps s ops).duration = s.duration := by
  induction ops generalizing s with
  | nil => rfl
  | cons op rest ih =>
    have hstep : (Snooze.apply s op).duration = s.duration := by
      cases op with
      | wait_call errs => exact Snooze.wait_duration_eq s errs
      | reset_call clk => exact Snooze.reset_duration_eq s clk
    calc (Snooze.runOps s (op :: rest)).duration
        = (Snooze.runOps (Snooze.apply s op) rest).duration := rfl
      _ = (Snooze.apply s op).duration := ih (Snooze.apply s op)
      _ = s.duration := hstep

/-- C8: a successful `reset` overwrites the anchor with the fresh clock
value T, so the next `wait` targets T + interval — the target, and the
whole `wait` outcome, no longer depend on the pre-reset anchor. -/
theorem C8_reset_reanchors (s1 s2 : Snooze) (T : timespec) (errs : List IoError)
    (hdur : s1.duration = s2.duration) :
    (Snooze.reset s1 (.ok T)).2.last_time = T ∧
    Snooze.target_time (Snooze.reset s1 (.ok T)).2
      = Snooze.target_time { duration := s1.duration, last_time := T } ∧
    (Snooze.target_time (Snooze.reset s1 (.ok T)).2).toNanos
      = T.toNanos + s1.duration.toNanos ∧
    Snooze.wait (Snooze.reset s1 (.ok T)).2 errs
      = Snooze.wait (Snooze.reset s2 (.ok T)).2 errs := by
  obtain ⟨d1, l1⟩ := s1
  obtain ⟨d2, l2⟩ := s2
  dsimp at hdur
  subst hdur
  refine ⟨rfl, rfl, ?_, rfl⟩
  rw [Snooze.target_time_toNanos]
  rfl

/-- Witness for C8: resetting the sample waiter to 200 s re-anchors it, and
a waiter with a different pre-reset anchor behaves identically afterwards. -/
theorem C8_witness :
    (Snooze.reset sample (.ok { tv_sec := 200, tv_nsec := 0 })).2.last_time
      = { tv_sec := 200, tv_nsec := 0 } ∧
    Snooze.wait (Snooze.reset sample (.ok { tv_sec := 200, tv_nsec := 0 })).2 []
      = Snooze.wait (Snooze.reset
          { duration := { tv_sec := 0, tv_nsec := 500000000 },
            last_time := { tv_sec := 42, tv_nsec := 7 } }
          (.ok { tv_sec := 200, tv_nsec := 0 })).2 [] :=
  ⟨(C8_reset_reanchors sample
      { duration := { tv_sec := 0, tv_nsec := 500000000 },
        last_time := { tv_sec := 42, tv_nsec := 7 } }
      { tv_sec := 200, tv_nsec := 0 } [] rfl).1,
   (C8_reset_reanchors sample
      { duration := { tv_sec := 0, tv_nsec := 500000000 },
        last_time := { tv_sec := 42, tv_nsec := 7 } }
      { tv_sec := 200, tv_nsec := 0 } [] rfl).2.2.2⟩

/-- C9: `new` stores the interval exactly — whole seconds truncated toward
zero plus the nanosecond remainder, whose total value equals the input
duration — initializes the anchor from the single clock read, and issues no
other syscall (in particular it does not sleep). -/
theorem C9_new_stores_exact (d : Int) (tp : timespec) :
    Snooze.new d (.ok tp)
      = some (.ok { duration := { tv_sec := Duration.num_seconds d,
                                  tv_nsec := Int.tmod d 1000000000 },
                    last_time := tp }) ∧
    ({ tv_sec := Duration.num_seconds d,
       tv_nsec := Int.tmod d 1000000000 } : timespec).toNanos = d ∧
    Duration.num_seconds d = Int.tdiv d 1000000000 ∧
    Snooze.new_syscalls d = [Syscall.clock_read] := by
  refine ⟨?_, ?_, rfl, ?_⟩
  · simp only [Snooze.new]
    rw [Duration.num_nanoseconds_remainder d]
    rfl
  · simp only [timespec.toNanos, Duration.num_seconds]
    have h1 := Int.tdiv_add_tmod d 1000000000
    omega
  · simp only [Snooze.new_syscalls]
    rw [Duration.num_nanoseconds_remainder d]

/-- C10: for a non-negative input duration the remainder left after
subtracting the truncated whole-seconds part lies in [0, 1e9), so
`num_nanoseconds` returns `Some` and the `unwrap()` in `new` never
panics. -/
theorem C10_unwrap_never_panics (d : Int) (clk : Except IoError timespec)
    (h : 0 ≤ d) :
    0 ≤ d - Duration.seconds (Duration.num_seconds d) ∧
    d - Duration.seconds (Duration.num_seconds d) < 1000000000 ∧
    (Duration.num_nanoseconds (d - Duration.seconds (Duration.num_seconds d))).isSome ∧
    (Snooze.new d clk).isSome := by
  have hrem := Duration.remainder_eq_tmod d
  have hb := Int.tmod_bound_billion d
  have hnn : 0 ≤ Int.tmod d 1000000000 := Int.tmod_nonneg 1000000000 h
  refine ⟨by omega, by omega, ?_, ?_⟩
  · rw [Duration.num_nanoseconds_remainder d]
    rfl
  · simp only [Snooze.new]
    rw [Duration.num_nanoseconds_remainder d]
    rfl

/-- Witness for C10: a 1.5 s duration decomposes without panicking. -/
theorem C10_witness :
    0 ≤ (1500000000 : Int) - Duration.seconds (Duration.num_seconds 1500000000) ∧
    (1500000000 : Int) - Duration.seconds (Duration.num_seconds 1500000000) < 1000000000 ∧
    (Duration.num_nanoseconds
      ((1500000000 : Int) - Duration.seconds (Duration.num_seconds 1500000000))).isSome ∧
    (Snooze.new 1500000000 (.ok { tv_sec := 0, tv_nsec := 0 })).isSome :=
  C10_unwrap_never_panics 1500000000 (.ok { tv_sec := 0, tv_nsec := 0 }) (by decide)
